import Mathlib

/-!
Shallow embedding of the authentication core of `val.dokduk`
(`apps/server/src/modules/auth/auth.service.ts`): the SRP two-step login
handshake session handling, refresh-token rotation with theft detection,
logout revocation, token validation, and the `durationToSeconds` config
parser.  Redis is modelled as a function from string keys to entries
carrying a value and the TTL it was last `setex`-ed with; the JWT library
and the SRP engine (external packages `@nestjs/jwt` and `tssrp6a`) are
modelled as explicit function parameters.
-/

/-- Claims the service signs into a token (`JwtPayload` without `iat`/`exp`). -/
structure JwtClaims where
  sub : String
  username : String
  type : String
deriving Repr, DecidableEq

/-- Decoded payload returned by `jwtService.verify`: the signed claims plus
the `exp` timestamp the JWT library added at signing time. -/
structure JwtPayload where
  sub : String
  username : String
  type : String
  exp : Nat
deriving Repr, DecidableEq

/-- The external `@nestjs/jwt` service: `sign(payload, {expiresIn})` and
`verify(token)`; `verify` returns `none` where the library would throw
(malformed token, bad signature, expired). -/
structure JwtService where
  sign : JwtClaims → Nat → String
  verify : String → Option JwtPayload

/-- SRP handshake session data stored (as JSON) in Redis during login. -/
structure SRPSessionData where
  username : String
  serverStep1State : String
  createdAt : Nat
deriving Repr, DecidableEq

/-- A Redis value: either a plain string or the JSON serialization of an
SRP session record (which round-trips exactly through JSON). -/
inductive RedisValue where
  | str : String → RedisValue
  | json : SRPSessionData → RedisValue
deriving Repr, DecidableEq

/-- A Redis entry: the stored value together with the TTL (seconds)
passed to `setex` when it was written. -/
structure RedisEntry where
  value : RedisValue
  ttl : Nat
deriving Repr, DecidableEq

/-- The Redis key-value store. -/
structure RedisState where
  store : String → Option RedisEntry

/-- `redis.get`: the stored value, if any. -/
def RedisState.get (s : RedisState) (k : String) : Option RedisValue :=
  (s.store k).map (·.value)

/-- `redis.setex key ttl value`. -/
def RedisState.setex (s : RedisState) (k : String) (ttl : Nat) (v : RedisValue) : RedisState :=
  ⟨fun k' => if k' = k then some ⟨v, ttl⟩ else s.store k'⟩

/-- `redis.del key`. -/
def RedisState.del (s : RedisState) (k : String) : RedisState :=
  ⟨fun k' => if k' = k then none else s.store k'⟩

/-- `redis.exists key` (as a boolean). -/
def RedisState.existsKey (s : RedisState) (k : String) : Bool :=
  (s.store k).isSome

/-- The empty store. -/
def RedisState.empty : RedisState := ⟨fun _ => none⟩

/-- Key of an SRP handshake session: `SRP_SESSION_PREFIX + sessionId`. -/
def srpSessionKey (sessionId : String) : String := "auth:srp:" ++ sessionId

/-- Key of a user's stored refresh token: `REFRESH_TOKEN_PREFIX + userId`. -/
def refreshTokenKey (userId : String) : String := "auth:refresh:" ++ userId

/-- Key of a blacklist entry: `TOKEN_BLACKLIST_PREFIX + token`. -/
def tokenBlacklistKey (token : String) : String := "auth:blacklist:" ++ token

/-- `SRP_SESSION_TTL = 300` (5 minutes for the SRP handshake). -/
def SRP_SESSION_TTL : Nat := 300

/-- Numeric value of a decimal digit string (JS `parseInt(num, 10)`). -/
def digitsToNat (cs : List Char) : Nat :=
  cs.foldl (fun a c => a * 10 + (c.toNat - 48)) 0

/-- Seconds multiplier for a duration unit character, `none` if the
character is not one of `s`, `m`, `h`, `d`. -/
def unitMultiplier (c : Char) : Option Nat :=
  if c = 's' then some 1
  else if c = 'm' then some 60
  else if c = 'h' then some (60 * 60)
  else if c = 'd' then some (24 * 60 * 60)
  else none

/-- Whether a string matches the regex `^(\d+)([smhd])$`. -/
def isDurationForm (s : String) : Bool :=
  match s.data.getLast? with
  | none => false
  | some u =>
    decide (s.data.dropLast ≠ []) && s.data.dropLast.all Char.isDigit
      && (unitMultiplier u).isSome

/-- `durationToSeconds`: convert a duration string matching
`^(\d+)([smhd])$` to seconds; any other string defaults to 7 days. -/
def durationToSeconds (duration : String) : Nat :=
  match duration.data.getLast? with
  | none => 7 * 24 * 60 * 60
  | some u =>
    let num := duration.data.dropLast
    if num ≠ [] ∧ num.all Char.isDigit then
      match unitMultiplier u with
      | some m => digitsToNat num * m
      | none => 7 * 24 * 60 * 60
    else 7 * 24 * 60 * 60

/-- Config values derived in the `AuthService` constructor. -/
structure AuthConfig where
  accessTokenExpiry : Nat
  refreshTokenExpiry : Nat
deriving Repr, DecidableEq

/-- The env config strings the constructor reads. -/
structure EnvConfig where
  JWT_ACCESS_EXPIRES_IN : String
  JWT_REFRESH_EXPIRES_IN : String

/-- The `AuthService` constructor's derivation of token expiries from env. -/
def mkAuthConfig (env : EnvConfig) : AuthConfig :=
  { accessTokenExpiry := durationToSeconds env.JWT_ACCESS_EXPIRES_IN
    refreshTokenExpiry := durationToSeconds env.JWT_REFRESH_EXPIRES_IN }

/-- A row of the `authUsers` table. -/
structure AuthUser where
  id : String
  username : String
  srpSalt : String
  srpVerifier : String
deriving Repr, DecidableEq

/-- Errors thrown by the service: NestJS `UnauthorizedException` /
`BadRequestException` with their message, or an uncaught internal error. -/
inductive AuthError where
  | unauthorized : String → AuthError
  | badRequest : String → AuthError
  | internal : AuthError
deriving Repr, DecidableEq

/-- `LoginStep1Dto` (the fields `loginStep1` reads). -/
structure LoginStep1Dto where
  username : String
  turnstileToken : String
deriving Repr, DecidableEq

/-- `LoginStep1Response`. -/
structure LoginStep1Response where
  sessionId : String
  salt : String
  serverPublicEphemeral : String
deriving Repr, DecidableEq

/-- `LoginStep2Dto`. -/
structure LoginStep2Dto where
  sessionId : String
  clientPublicEphemeral : String
  clientProof : String
deriving Repr, DecidableEq

/-- `LoginStep2Response`. -/
structure LoginStep2Response where
  serverProof : String
  accessToken : String
  refreshToken : String
deriving Repr, DecidableEq

/-- The access/refresh token pair returned by `generateTokens`. -/
structure TokenPair where
  accessToken : String
  refreshToken : String
deriving Repr, DecidableEq

/-- `AuthenticatedUser`. -/
structure AuthenticatedUser where
  id : String
  username : String
deriving Repr, DecidableEq

/-- JS `String.prototype.toLowerCase`, modelled character-wise (the ASCII
case mapping, which covers the usernames this service normalizes). -/
def toLowerCase (s : String) : String := ⟨s.data.map Char.toLower⟩

/-- Output of `tssrp6a`'s `serverSession.step1`: the public ephemeral `B`
(hex) and the serialized step-1 state. -/
structure SRPStep1Result where
  B : String
  state : String
deriving Repr, DecidableEq

/-- `AuthService.generateTokens`: sign an access and a refresh token, then
`setex` the refresh token under the user's key with TTL
`refreshTokenExpiry` (the same value passed to `sign` as `expiresIn`). -/
def generateTokens (cfg : AuthConfig) (jwt : JwtService) (userId username : String)
    (s : RedisState) : TokenPair × RedisState :=
  let accessToken := jwt.sign ⟨userId, username, "access"⟩ cfg.accessTokenExpiry
  let refreshToken := jwt.sign ⟨userId, username, "refresh"⟩ cfg.refreshTokenExpiry
  let s1 := s.setex (refreshTokenKey userId) cfg.refreshTokenExpiry (.str refreshToken)
  (⟨accessToken, refreshToken⟩, s1)

/-- `AuthService.loginStep1`.  External collaborators appear as parameters:
`captchaOk` is the Turnstile verdict, `db` the `authUsers` lookup by
(lowercased) username, `srpStep1` the `tssrp6a` step-1 computation over
(lowercased username, salt, verifier), `sessionId` the fresh `nanoid(32)`,
`now` the clock reading for `createdAt`. -/
def loginStep1 (db : String → Option AuthUser) (captchaOk : Bool)
    (srpStep1 : String → String → String → SRPStep1Result)
    (sessionId : String) (now : Nat) (dto : LoginStep1Dto) (s : RedisState) :
    Except AuthError LoginStep1Response × RedisState :=
  if !captchaOk then
    (.error (.badRequest "CAPTCHA verification failed"), s)
  else
    match db (toLowerCase dto.username) with
    | none => (.error (.unauthorized "Invalid credentials"), s)
    | some user =>
      let step1 := srpStep1 (toLowerCase dto.username) user.srpSalt user.srpVerifier
      let sessionData : SRPSessionData := ⟨user.username, step1.state, now⟩
      let s1 := s.setex (srpSessionKey sessionId) SRP_SESSION_TTL (.json sessionData)
      (.ok ⟨sessionId, user.srpSalt, step1.B⟩, s1)

/-- `AuthService.loginStep2`.  `srpStep2 state A M1` models
`SRPServerSessionStep1.fromState(...).step2(A, M1)` of `tssrp6a`, returning
`none` where the library (or the hex-to-BigInt conversion) would throw —
in particular on a wrong client proof.  The session is deleted before
verification; every throw inside the `try` (SRP failure, user vanished)
is re-thrown as the generic `Invalid credentials`.  A stored value that is
not session JSON would make `JSON.parse` throw before the delete;
`loginStep1` never writes such a value. -/
def loginStep2 (cfg : AuthConfig) (jwt : JwtService) (db : String → Option AuthUser)
    (srpStep2 : String → String → String → Option String)
    (dto : LoginStep2Dto) (s : RedisState) :
    Except AuthError LoginStep2Response × RedisState :=
  match s.get (srpSessionKey dto.sessionId) with
  | none => (.error (.unauthorized "Session expired or invalid"), s)
  | some (.str _) => (.error .internal, s)
  | some (.json sessionData) =>
    let s1 := s.del (srpSessionKey dto.sessionId)
    match srpStep2 sessionData.serverStep1State dto.clientPublicEphemeral dto.clientProof with
    | none => (.error (.unauthorized "Invalid credentials"), s1)
    | some M2 =>
      match db sessionData.username with
      | none => (.error (.unauthorized "Invalid credentials"), s1)
      | some user =>
        let ts := generateTokens cfg jwt user.id user.username s1
        (.ok ⟨M2, ts.1.accessToken, ts.1.refreshToken⟩, ts.2)

/-- `AuthService.refreshTokens`: verify, check `type == 'refresh'`, check
the blacklist, compare with the stored record; on mismatch delete the
record (theft detection); on match rotate via `generateTokens` and
blacklist the old token with TTL `refreshTokenExpiry`.  A throw from
`verify` is caught and re-thrown as the generic `Invalid refresh token`;
`UnauthorizedException`s are re-thrown unchanged. -/
def refreshTokens (cfg : AuthConfig) (jwt : JwtService) (refreshToken : String)
    (s : RedisState) : Except AuthError TokenPair × RedisState :=
  match jwt.verify refreshToken with
  | none => (.error (.unauthorized "Invalid refresh token"), s)
  | some payload =>
    if payload.type ≠ "refresh" then
      (.error (.unauthorized "Invalid token type"), s)
    else if s.existsKey (tokenBlacklistKey refreshToken) then
      (.error (.unauthorized "Token has been revoked"), s)
    else
      match s.get (refreshTokenKey payload.sub) with
      | some (.str t) =>
        if t = refreshToken then
          let ts := generateTokens cfg jwt payload.sub payload.username s
          let s2 := ts.2.setex (tokenBlacklistKey refreshToken) cfg.refreshTokenExpiry (.str "1")
          (.ok ts.1, s2)
        else
          (.error (.unauthorized "Invalid refresh token"),
            s.del (refreshTokenKey payload.sub))
      | _ =>
        (.error (.unauthorized "Invalid refresh token"),
          s.del (refreshTokenKey payload.sub))

/-- `AuthService.logout`: delete the stored refresh record; if a token was
supplied, blacklist it with TTL `refreshTokenExpiry`. -/
def logout (cfg : AuthConfig) (userId : String) (refreshToken : Option String)
    (s : RedisState) : RedisState :=
  let s1 := s.del (refreshTokenKey userId)
  match refreshToken with
  | some t => s1.setex (tokenBlacklistKey t) cfg.refreshTokenExpiry (.str "1")
  | none => s1

/-- `AuthService.validateToken`: pure verification; identity when the
token verifies and `type == 'access'`, `null` otherwise (a `verify` throw
is caught and yields `null`). -/
def validateToken (jwt : JwtService) (token : String) : Option AuthenticatedUser :=
  match jwt.verify token with
  | none => none
  | some payload =>
    if payload.type ≠ "access" then none
    else some ⟨payload.sub, payload.username⟩

/-- Remaining lifetime of a verified token at time `now`: the seconds
until its own cryptographic expiry. -/
def remainingLifetime (payload : JwtPayload) (now : Nat) : Nat :=
  payload.exp - now

theorem RedisState.store_setex (s : RedisState) (k : String) (ttl : Nat) (v : RedisValue)
    (k' : String) :
    (s.setex k ttl v).store k' = if k' = k then some ⟨v, ttl⟩ else s.store k' := rfl

theorem RedisState.store_del (s : RedisState) (k k' : String) :
    (s.del k).store k' = if k' = k then none else s.store k' := rfl

/-- Two appends differ whenever the left parts differ at a common index. -/
theorem append_ne_of_ne_at (p q a b : String) (i : Nat)
    (hp : i < p.data.length) (hq : i < q.data.length)
    (hne : p.data[i]? ≠ q.data[i]?) : p ++ a ≠ q ++ b := by
  intro h
  have hd : (p ++ a).data = (q ++ b).data := congrArg String.data h
  rw [String.data_append, String.data_append] at hd
  have h5 : (p.data ++ a.data)[i]? = (q.data ++ b.data)[i]? := by rw [hd]
  rw [List.getElem?_append_left hp, List.getElem?_append_left hq] at h5
  exact hne h5

/-- The three Redis keyspaces are pairwise disjoint: their prefixes
differ at index 5 (`s` / `r` / `b`). -/
theorem srpKey_ne_refreshKey (a b : String) : srpSessionKey a ≠ refreshTokenKey b :=
  append_ne_of_ne_at _ _ a b 5 (by decide) (by decide) (by decide)

theorem blacklistKey_ne_refreshKey (a b : String) :
    tokenBlacklistKey a ≠ refreshTokenKey b :=
  append_ne_of_ne_at _ _ a b 5 (by decide) (by decide) (by decide)

theorem refreshKey_ne_blacklistKey (a b : String) :
    refreshTokenKey a ≠ tokenBlacklistKey b :=
  append_ne_of_ne_at _ _ a b 5 (by decide) (by decide) (by decide)

theorem srpKey_ne_blacklistKey (a b : String) :
    srpSessionKey a ≠ tokenBlacklistKey b :=
  append_ne_of_ne_at _ _ a b 5 (by decide) (by decide) (by decide)

/-- Any string failing the duration pattern maps to the 7-day default. -/
theorem durationToSeconds_default (s : String) (hform : isDurationForm s = false) :
    durationToSeconds s = 7 * 24 * 60 * 60 := by
  unfold isDurationForm at hform
  unfold durationToSeconds
  cases heq : s.data.getLast? with
  | none => rfl
  | some u =>
    rw [heq] at hform
    by_cases h1 : s.data.dropLast ≠ [] ∧ s.data.dropLast.all Char.isDigit = true
    · cases hm : unitMultiplier u with
      | none => simp [h1, hm]
      | some m =>
        exfalso
        simp [h1.1, h1.2, hm] at hform
    · exact if_neg h1

/-- Claim C9: `durationToSeconds` maps every `<digits><unit>` string with
unit in {s, m, h, d} to the value times the unit's seconds (1, 60, 3600,
86400), and every other string to 604800 (7 days); the service constructor
applies it to both configured expiries, so two misconfigured strings yield
a 7-day lifetime for both access and refresh tokens. -/
theorem c9_durationToSeconds_spec :
    (∀ (ds : List Char) (u : Char) (m : Nat), ds ≠ [] → ds.all Char.isDigit = true →
      unitMultiplier u = some m →
      durationToSeconds ⟨ds ++ [u]⟩ = digitsToNat ds * m)
    ∧ (∀ s : String, isDurationForm s = false → durationToSeconds s = 604800)
    ∧ unitMultiplier 's' = some 1 ∧ unitMultiplier 'm' = some 60
    ∧ unitMultiplier 'h' = some 3600 ∧ unitMultiplier 'd' = some 86400
    ∧ (∀ env : EnvConfig, isDurationForm env.JWT_ACCESS_EXPIRES_IN = false →
        isDurationForm env.JWT_REFRESH_EXPIRES_IN = false →
        mkAuthConfig env = ⟨604800, 604800⟩) := by
  refine ⟨?_, ?_, by decide, by decide, by decide, by decide, ?_⟩
  · intro ds u m hne hdig hm
    unfold durationToSeconds
    rw [show (String.mk (ds ++ [u])).data = ds ++ [u] from rfl]
    rw [List.getLast?_concat, List.dropLast_concat]
    simp [hne, hdig, hm]
  · intro s h
    exact durationToSeconds_default s h
  · intro env ha hr
    simp only [mkAuthConfig, durationToSeconds_default _ ha, durationToSeconds_default _ hr]

/-- Witness for C9 at concrete inputs: `"15m"` parses to 900 seconds and
the non-matching `"oops"` defaults to 604800. -/
theorem c9_witness :
    durationToSeconds ⟨['1', '5'] ++ ['m']⟩ = digitsToNat ['1', '5'] * 60
    ∧ durationToSeconds "oops" = 604800 :=
  ⟨c9_durationToSeconds_spec.1 ['1', '5'] 'm' 60 (by decide) (by decide) (by decide),
   c9_durationToSeconds_spec.2.1 "oops" (by decide)⟩

/-- Claim C8: `validateToken` never throws on an invalid token; it returns
the identity `{id, username}` exactly when `verify` succeeds and the type
claim is `access`, and `none` in every other case (type `refresh`,
malformed, expired). -/
theorem c8_validateToken_spec (jwt : JwtService) (t : String) :
    (∀ u : AuthenticatedUser,
      validateToken jwt t = some u ↔
        ∃ p, jwt.verify t = some p ∧ p.type = "access" ∧ u = ⟨p.sub, p.username⟩)
    ∧ (∀ p, jwt.verify t = some p → p.type ≠ "access" → validateToken jwt t = none)
    ∧ (jwt.verify t = none → validateToken jwt t = none) := by
  refine ⟨fun u => ?_, fun p hp hne => ?_, fun hn => ?_⟩
  · cases hv : jwt.verify t with
    | none => simp [validateToken, hv]
    | some p =>
      by_cases ht : p.type = "access"
      · simp only [validateToken, hv, ht, ne_eq, not_true_eq_false, if_false,
          Option.some.injEq]
        constructor
        · intro h
          exact ⟨p, rfl, ht, h.symm⟩
        · rintro ⟨p', hp', ht', hu⟩
          subst hp'
          rw [hu]
      · simp only [validateToken, hv, ht, ne_eq, not_false_eq_true, if_true,
          Option.some.injEq]
        constructor
        · intro h
          exact absurd h (by simp)
        · rintro ⟨p', hp', ht', _⟩
          subst hp'
          exact absurd ht' ht
  · simp [validateToken, hp, hne]
  · simp [validateToken, hn]

/-- A tiny concrete JWT service for witnesses: `"acc"` verifies with type
`access`, `"ref"` with type `refresh`, everything else is rejected. -/
def jwtAccessOnly : JwtService where
  sign := fun c e => c.sub ++ ":" ++ c.username ++ ":" ++ c.type ++ ":" ++ toString e
  verify := fun t =>
    if t = "acc" then some ⟨"u1", "alice", "access", 1000⟩
    else if t = "ref" then some ⟨"u1", "alice", "refresh", 1000⟩
    else none

/-- Witness for C8: on the concrete service, the access token maps to the
identity, the refresh-typed and malformed tokens map to `none`. -/
theorem c8_witness :
    validateToken jwtAccessOnly "acc" = some ⟨"u1", "alice"⟩
    ∧ validateToken jwtAccessOnly "ref" = none
    ∧ validateToken jwtAccessOnly "junk" = none :=
  ⟨((c8_validateToken_spec jwtAccessOnly "acc").1 ⟨"u1", "alice"⟩).mpr
      ⟨⟨"u1", "alice", "access", 1000⟩, by decide, rfl, rfl⟩,
   (c8_validateToken_spec jwtAccessOnly "ref").2.1 ⟨"u1", "alice", "refresh", 1000⟩
      (by decide) (by decide),
   (c8_validateToken_spec jwtAccessOnly "junk").2.2 (by decide)⟩

/-- Claim C7: for a registered (lowercase-normalized) username with a
passing CAPTCHA, `loginStep1` returns the stored salt, the supplied fresh
session id and the server public ephemeral, and stores the handshake
session under that id with TTL 300 seconds (5 minutes). -/
theorem c7_loginStep1_spec (db : String → Option AuthUser) (captchaOk : Bool)
    (srpStep1 : String → String → String → SRPStep1Result)
    (sessionId : String) (now : Nat) (dto : LoginStep1Dto) (s : RedisState)
    (user : AuthUser)
    (hc : captchaOk = true)
    (hu : db (toLowerCase dto.username) = some user) :
    (loginStep1 db captchaOk srpStep1 sessionId now dto s).1 =
      .ok ⟨sessionId, user.srpSalt,
        (srpStep1 (toLowerCase dto.username) user.srpSalt user.srpVerifier).B⟩
    ∧ (loginStep1 db captchaOk srpStep1 sessionId now dto s).2.store
        (srpSessionKey sessionId) =
      some ⟨.json ⟨user.username,
        (srpStep1 (toLowerCase dto.username) user.srpSalt user.srpVerifier).state,
        now⟩, 300⟩ := by
  subst hc
  refine ⟨?_, ?_⟩ <;>
    simp [loginStep1, hu, RedisState.store_setex, SRP_SESSION_TTL]

/-- Claim C1: `loginStep2` consumes a handshake session exactly once.
Whatever the outcome of a call on a present session, the session key is
gone afterwards and a repeat call with the same `sessionId` fails with
`Session expired or invalid`; any `sessionId` absent from the store yields
that same failure with the store untouched. -/
theorem c1_session_single_use (cfg : AuthConfig) (jwt : JwtService)
    (db : String → Option AuthUser) (srp : String → String → String → Option String)
    (dto : LoginStep2Dto) (s : RedisState) (d : SRPSessionData) (ttl : Nat)
    (h : s.store (srpSessionKey dto.sessionId) = some ⟨.json d, ttl⟩) :
    ((loginStep2 cfg jwt db srp dto s).2.store (srpSessionKey dto.sessionId) = none)
    ∧ (loginStep2 cfg jwt db srp dto ((loginStep2 cfg jwt db srp dto s).2) =
        (.error (.unauthorized "Session expired or invalid"),
         (loginStep2 cfg jwt db srp dto s).2))
    ∧ (∀ (dto' : LoginStep2Dto) (s' : RedisState),
        s'.store (srpSessionKey dto'.sessionId) = none →
        loginStep2 cfg jwt db srp dto' s' =
          (.error (.unauthorized "Session expired or invalid"), s')) := by
  have habsent : ∀ (dto' : LoginStep2Dto) (s' : RedisState),
      s'.store (srpSessionKey dto'.sessionId) = none →
      loginStep2 cfg jwt db srp dto' s' =
        (.error (.unauthorized "Session expired or invalid"), s') := by
    intro dto' s' hn
    simp [loginStep2, RedisState.get, hn]
  have hdel : (loginStep2 cfg jwt db srp dto s).2.store (srpSessionKey dto.sessionId)
      = none := by
    simp only [loginStep2, RedisState.get, h, Option.map_some']
    cases hsrp : srp d.serverStep1State dto.clientPublicEphemeral dto.clientProof with
    | none => simp [RedisState.store_del]
    | some M2 =>
      cases hdb : db d.username with
      | none => simp [RedisState.store_del]
      | some user =>
        simp [generateTokens, RedisState.store_setex, RedisState.store_del,
          srpKey_ne_refreshKey dto.sessionId user.id]
  exact ⟨hdel, habsent dto _ hdel, habsent⟩

/-- Claim C6: when the handshake session exists but SRP verification
fails, `loginStep2` fails with the generic `Invalid credentials` and
writes no tokens: every refresh record and blacklist entry is exactly as
before the call. -/
theorem c6_invalid_proof (cfg : AuthConfig) (jwt : JwtService)
    (db : String → Option AuthUser) (srp : String → String → String → Option String)
    (dto : LoginStep2Dto) (s : RedisState) (d : SRPSessionData) (ttl : Nat)
    (h : s.store (srpSessionKey dto.sessionId) = some ⟨.json d, ttl⟩)
    (hsrp : srp d.serverStep1State dto.clientPublicEphemeral dto.clientProof = none) :
    (loginStep2 cfg jwt db srp dto s).1 = .error (.unauthorized "Invalid credentials")
    ∧ (∀ uid, (loginStep2 cfg jwt db srp dto s).2.store (refreshTokenKey uid) =
        s.store (refreshTokenKey uid))
    ∧ (∀ tok, (loginStep2 cfg jwt db srp dto s).2.store (tokenBlacklistKey tok) =
        s.store (tokenBlacklistKey tok)) := by
  have hred : loginStep2 cfg jwt db srp dto s =
      (.error (.unauthorized "Invalid credentials"),
       s.del (srpSessionKey dto.sessionId)) := by
    simp only [loginStep2, RedisState.get, h, Option.map_some']
    rw [hsrp]
  rw [hred]
  refine ⟨rfl, fun uid => ?_, fun tok => ?_⟩
  · simp [RedisState.store_del, Ne.symm (srpKey_ne_refreshKey dto.sessionId uid)]
  · simp [RedisState.store_del, Ne.symm (srpKey_ne_blacklistKey dto.sessionId tok)]

/-- Concrete `authUsers` table with one registered user, for witnesses. -/
def dbAlice : String → Option AuthUser := fun u =>
  if u = "alice" then some ⟨"u1", "alice", "saltA", "verifA"⟩ else none

/-- Concrete SRP step-1 computation for witnesses. -/
def srpStep1Fixed : String → String → String → SRPStep1Result :=
  fun _ _ _ => ⟨"B1", "state1"⟩

/-- Concrete SRP step-2 that accepts the proof, for witnesses. -/
def srpAccept : String → String → String → Option String :=
  fun _ _ _ => some "M2"

/-- Concrete SRP step-2 that rejects the proof, for witnesses. -/
def srpReject : String → String → String → Option String :=
  fun _ _ _ => none

/-- A store holding one handshake session, for witnesses. -/
def sessionStore : RedisState :=
  RedisState.empty.setex (srpSessionKey "sid1") 300 (.json ⟨"alice", "state1", 42⟩)

/-- Concrete token expiries for witnesses. -/
def cfgW : AuthConfig := ⟨900, 604800⟩

/-- Witness for C1 at a concrete store: after one `loginStep2` call on a
present session the key is gone and the replayed call fails. -/
theorem c1_witness :
    ((loginStep2 cfgW jwtAccessOnly dbAlice srpAccept ⟨"sid1", "A", "M1"⟩
        sessionStore).2.store (srpSessionKey "sid1") = none)
    ∧ ((loginStep2 cfgW jwtAccessOnly dbAlice srpAccept ⟨"sid1", "A", "M1"⟩
        ((loginStep2 cfgW jwtAccessOnly dbAlice srpAccept ⟨"sid1", "A", "M1"⟩
          sessionStore).2)).1 =
        .error (.unauthorized "Session expired or invalid")) := by
  have hc := c1_session_single_use cfgW jwtAccessOnly dbAlice srpAccept
    ⟨"sid1", "A", "M1"⟩ sessionStore ⟨"alice", "state1", 42⟩ 300 (by decide)
  exact ⟨hc.1, by rw [hc.2.1]⟩

/-- Witness for C6 at a concrete store: a failing proof yields the generic
failure and leaves the refresh record untouched. -/
theorem c6_witness :
    ((loginStep2 cfgW jwtAccessOnly dbAlice srpReject ⟨"sid1", "A", "M1"⟩
        sessionStore).1 = .error (.unauthorized "Invalid credentials"))
    ∧ ((loginStep2 cfgW jwtAccessOnly dbAlice srpReject ⟨"sid1", "A", "M1"⟩
        sessionStore).2.store (refreshTokenKey "u1") =
        sessionStore.store (refreshTokenKey "u1")) := by
  have hc := c6_invalid_proof cfgW jwtAccessOnly dbAlice srpReject
    ⟨"sid1", "A", "M1"⟩ sessionStore ⟨"alice", "state1", 42⟩ 300 (by decide) rfl
  exact ⟨hc.1, hc.2.1 "u1"⟩

/-- Witness for C7 at a concrete store: `loginStep1("Alice")` returns the
salt stored for `alice` and records the session with TTL 300. -/
theorem c7_witness :
    ((loginStep1 dbAlice true srpStep1Fixed "sid1" 42 ⟨"Alice", "tok"⟩
        RedisState.empty).1 = .ok ⟨"sid1", "saltA", "B1"⟩)
    ∧ ((loginStep1 dbAlice true srpStep1Fixed "sid1" 42 ⟨"Alice", "tok"⟩
        RedisState.empty).2.store (srpSessionKey "sid1") =
        some ⟨.json ⟨"alice", "state1", 42⟩, 300⟩) := by
  have hc := c7_loginStep1_spec dbAlice true srpStep1Fixed "sid1" 42 ⟨"Alice", "tok"⟩
    RedisState.empty ⟨"u1", "alice", "saltA", "verifA"⟩ rfl (by decide)
  exact ⟨hc.1, hc.2⟩

theorem string_append_left_cancel (p a b : String) (h : p ++ a = p ++ b) : a = b := by
  have hd : (p ++ a).data = (p ++ b).data := congrArg String.data h
  rw [String.data_append, String.data_append] at hd
  exact String.ext (List.append_cancel_left hd)

theorem refreshTokenKey_inj (a b : String) (h : refreshTokenKey a = refreshTokenKey b) :
    a = b :=
  string_append_left_cancel _ a b h

/-- Claim C2: a refresh token that passes verification, type and blacklist
checks but does not match the stored record for its subject triggers theft
detection: the stored record is deleted and the call fails with
`Invalid refresh token`; afterwards any refresh-typed token for the same
subject (in particular the newer, previously stored one) also fails. -/
theorem c2_theft_detection (cfg : AuthConfig) (jwt : JwtService) (tok : String)
    (s : RedisState) (p : JwtPayload)
    (hv : jwt.verify tok = some p)
    (ht : p.type = "refresh")
    (hb : s.store (tokenBlacklistKey tok) = none)
    (hmis : s.get (refreshTokenKey p.sub) ≠ some (.str tok)) :
    (refreshTokens cfg jwt tok s).1 = .error (.unauthorized "Invalid refresh token")
    ∧ (refreshTokens cfg jwt tok s).2.store (refreshTokenKey p.sub) = none
    ∧ (∀ (tok2 : String) (p2 : JwtPayload),
        jwt.verify tok2 = some p2 → p2.type = "refresh" → p2.sub = p.sub →
        s.store (tokenBlacklistKey tok2) = none →
        (refreshTokens cfg jwt tok2 ((refreshTokens cfg jwt tok s).2)).1 =
          .error (.unauthorized "Invalid refresh token")) := by
  have hred : refreshTokens cfg jwt tok s =
      (.error (.unauthorized "Invalid refresh token"),
       s.del (refreshTokenKey p.sub)) := by
    simp only [refreshTokens, hv, ht, ne_eq, not_true_eq_false, if_false,
      RedisState.existsKey, hb, Option.isSome_none, Bool.false_eq_true]
    cases hg : s.get (refreshTokenKey p.sub) with
    | none => simp
    | some v =>
      cases v with
      | str t =>
        have htne : t ≠ tok := by
          intro hteq
          exact hmis (by rw [hg, hteq])
        simp [htne]
      | json d => simp
  refine ⟨by rw [hred], by simp [hred, RedisState.store_del], ?_⟩
  intro tok2 p2 hv2 ht2 hsub hb2
  rw [hred]
  simp only [refreshTokens, hv2, ht2, ne_eq, not_true_eq_false, if_false,
    RedisState.existsKey, RedisState.store_del,
    Ne.symm (blacklistKey_ne_refreshKey tok2 p.sub)]
  simp [RedisState.get, RedisState.store_del, hsub, hb2]

/-- Claim C10 (amendable part proven as stated): when `refreshTokens`
fails before the stored-record comparison — unverifiable token, wrong
type, or blacklisted token — the whole store is returned unchanged. -/
theorem c10_no_mutation_on_early_failure (cfg : AuthConfig) (jwt : JwtService)
    (tok : String) (s : RedisState) :
    (jwt.verify tok = none →
      refreshTokens cfg jwt tok s =
        (.error (.unauthorized "Invalid refresh token"), s))
    ∧ (∀ p, jwt.verify tok = some p → p.type ≠ "refresh" →
      refreshTokens cfg jwt tok s =
        (.error (.unauthorized "Invalid token type"), s))
    ∧ (∀ p, jwt.verify tok = some p → p.type = "refresh" →
      s.existsKey (tokenBlacklistKey tok) = true →
      refreshTokens cfg jwt tok s =
        (.error (.unauthorized "Token has been revoked"), s)) := by
  refine ⟨fun hn => ?_, fun p hp ht => ?_, fun p hp ht hbl => ?_⟩
  · simp [refreshTokens, hn]
  · simp [refreshTokens, hp, ht]
  · simp [refreshTokens, hp, ht, hbl]

/-- Counterexample for C4 at concrete inputs: a wrong-typed token fails
with `Invalid token type`, a malformed one with `Invalid refresh token` —
two distinguishable messages, so not every failure surfaces the same
generic message. -/
theorem c4_counterexample :
    ((refreshTokens cfgW jwtAccessOnly "acc" RedisState.empty).1 =
      .error (.unauthorized "Invalid token type"))
    ∧ ((refreshTokens cfgW jwtAccessOnly "junk" RedisState.empty).1 =
      .error (.unauthorized "Invalid refresh token"))
    ∧ AuthError.unauthorized "Invalid token type" ≠
        AuthError.unauthorized "Invalid refresh token" := by
  refine ⟨?_, ?_, by decide⟩ <;> rfl

/-- Claim C4 as amended: every `refreshTokens` failure is an
`UnauthorizedException`, but the message depends on the cause —
`Invalid refresh token` for unverifiable (expired/malformed) and
mismatched tokens, `Invalid token type` for a wrong type claim, and
`Token has been revoked` for a blacklisted token. -/
theorem c4_failure_messages (cfg : AuthConfig) (jwt : JwtService)
    (tok : String) (s : RedisState) :
    (jwt.verify tok = none →
      (refreshTokens cfg jwt tok s).1 =
        .error (.unauthorized "Invalid refresh token"))
    ∧ (∀ p, jwt.verify tok = some p → p.type ≠ "refresh" →
      (refreshTokens cfg jwt tok s).1 =
        .error (.unauthorized "Invalid token type"))
    ∧ (∀ p, jwt.verify tok = some p → p.type = "refresh" →
      s.existsKey (tokenBlacklistKey tok) = true →
      (refreshTokens cfg jwt tok s).1 =
        .error (.unauthorized "Token has been revoked"))
    ∧ (∀ p, jwt.verify tok = some p → p.type = "refresh" →
      s.existsKey (tokenBlacklistKey tok) = false →
      s.get (refreshTokenKey p.sub) ≠ some (.str tok) →
      (refreshTokens cfg jwt tok s).1 =
        .error (.unauthorized "Invalid refresh token")) := by
  refine ⟨fun hn => ?_, fun p hp ht => ?_, fun p hp ht hbl => ?_,
    fun p hp ht hbl hmis => ?_⟩
  · simp [refreshTokens, hn]
  · simp [refreshTokens, hp, ht]
  · simp [refreshTokens, hp, ht, hbl]
  · simp only [refreshTokens, hp, ht, ne_eq, not_true_eq_false, if_false, hbl,
      Bool.false_eq_true]
    cases hg : s.get (refreshTokenKey p.sub) with
    | none => simp
    | some v =>
      cases v with
      | str t =>
        have htne : t ≠ tok := by
          intro hteq
          exact hmis (by rw [hg, hteq])
        simp [htne]
      | json d => simp

/-- Concrete JWT service for rotation scenarios: a stored `newTok` has
superseded `oldTok` for subject `u1`; `sign` is deterministic per claims. -/
def jwtRotated : JwtService where
  sign := fun c _ => c.sub ++ "." ++ c.username ++ "." ++ c.type
  verify := fun t =>
    if t = "oldTok" then some ⟨"u1", "alice", "refresh", 1000⟩
    else if t = "newTok" then some ⟨"u1", "alice", "refresh", 2000⟩
    else none

/-- A store whose only record is the rotated-in `newTok` for user `u1`. -/
def rotStore : RedisState :=
  RedisState.empty.setex (refreshTokenKey "u1") 604800 (.str "newTok")

/-- `rotStore` with the token `ref` blacklisted. -/
def blStore : RedisState :=
  rotStore.setex (tokenBlacklistKey "ref") 604800 (.str "1")

/-- Witness for C2 at concrete inputs: presenting superseded `oldTok`
fails, deletes the record, and then even the current `newTok` fails. -/
theorem c2_witness :
    ((refreshTokens cfgW jwtRotated "oldTok" rotStore).1 =
      .error (.unauthorized "Invalid refresh token"))
    ∧ ((refreshTokens cfgW jwtRotated "oldTok" rotStore).2.store
        (refreshTokenKey "u1") = none)
    ∧ ((refreshTokens cfgW jwtRotated "newTok"
        ((refreshTokens cfgW jwtRotated "oldTok" rotStore).2)).1 =
      .error (.unauthorized "Invalid refresh token")) := by
  have hc := c2_theft_detection cfgW jwtRotated "oldTok" rotStore
    ⟨"u1", "alice", "refresh", 1000⟩ (by decide) rfl (by decide) (by decide)
  exact ⟨hc.1, hc.2.1,
    hc.2.2 "newTok" ⟨"u1", "alice", "refresh", 2000⟩ (by decide) rfl rfl (by decide)⟩

/-- Witness for C10 at concrete inputs: the three early failures leave the
store untouched. -/
theorem c10_witness :
    (refreshTokens cfgW jwtAccessOnly "junk" rotStore =
      (.error (.unauthorized "Invalid refresh token"), rotStore))
    ∧ (refreshTokens cfgW jwtAccessOnly "acc" rotStore =
      (.error (.unauthorized "Invalid token type"), rotStore))
    ∧ (refreshTokens cfgW jwtAccessOnly "ref" blStore =
      (.error (.unauthorized "Token has been revoked"), blStore)) :=
  ⟨(c10_no_mutation_on_early_failure cfgW jwtAccessOnly "junk" rotStore).1 (by decide),
   (c10_no_mutation_on_early_failure cfgW jwtAccessOnly "acc" rotStore).2.1
      ⟨"u1", "alice", "access", 1000⟩ (by decide) (by decide),
   (c10_no_mutation_on_early_failure cfgW jwtAccessOnly "ref" blStore).2.2
      ⟨"u1", "alice", "refresh", 1000⟩ (by decide) rfl (by decide)⟩

/-- Witness for C4 (amended) at concrete inputs: each failure cause and
its message. -/
theorem c4_witness :
    ((refreshTokens cfgW jwtAccessOnly "junk" rotStore).1 =
      .error (.unauthorized "Invalid refresh token"))
    ∧ ((refreshTokens cfgW jwtAccessOnly "acc" rotStore).1 =
      .error (.unauthorized "Invalid token type"))
    ∧ ((refreshTokens cfgW jwtAccessOnly "ref" blStore).1 =
      .error (.unauthorized "Token has been revoked"))
    ∧ ((refreshTokens cfgW jwtRotated "oldTok" rotStore).1 =
      .error (.unauthorized "Invalid refresh token")) :=
  ⟨(c4_failure_messages cfgW jwtAccessOnly "junk" rotStore).1 (by decide),
   (c4_failure_messages cfgW jwtAccessOnly "acc" rotStore).2.1
      ⟨"u1", "alice", "access", 1000⟩ (by decide) (by decide),
   (c4_failure_messages cfgW jwtAccessOnly "ref" blStore).2.2.1
      ⟨"u1", "alice", "refresh", 1000⟩ (by decide) rfl (by decide),
   (c4_failure_messages cfgW jwtRotated "oldTok" rotStore).2.2.2
      ⟨"u1", "alice", "refresh", 1000⟩ (by decide) rfl (by decide) (by decide)⟩

/-- Claim C5: every token-issuing operation routes through
`generateTokens`, which overwrites the single refresh record keyed by the
user — other users' records untouched — storing the just-signed refresh
token with store TTL `refreshTokenExpiry`, the same value passed to `sign`
as the token's own expiry; this holds at the end of a successful
`refreshTokens` and a successful `loginStep2`. -/
theorem c5_refresh_record_invariant :
    (∀ (cfg : AuthConfig) (jwt : JwtService) (uid uname : String) (s : RedisState),
      (generateTokens cfg jwt uid uname s).2.store (refreshTokenKey uid) =
        some ⟨.str (generateTokens cfg jwt uid uname s).1.refreshToken,
          cfg.refreshTokenExpiry⟩
      ∧ (generateTokens cfg jwt uid uname s).1.refreshToken =
        jwt.sign ⟨uid, uname, "refresh"⟩ cfg.refreshTokenExpiry
      ∧ (∀ uid', uid' ≠ uid →
          (generateTokens cfg jwt uid uname s).2.store (refreshTokenKey uid') =
            s.store (refreshTokenKey uid')))
    ∧ (∀ (cfg : AuthConfig) (jwt : JwtService) (tok : String) (s : RedisState)
        (p : JwtPayload),
        jwt.verify tok = some p → p.type = "refresh" →
        s.store (tokenBlacklistKey tok) = none →
        s.get (refreshTokenKey p.sub) = some (.str tok) →
        (refreshTokens cfg jwt tok s).2.store (refreshTokenKey p.sub) =
          some ⟨.str (jwt.sign ⟨p.sub, p.username, "refresh"⟩ cfg.refreshTokenExpiry),
            cfg.refreshTokenExpiry⟩)
    ∧ (∀ (cfg : AuthConfig) (jwt : JwtService) (db : String → Option AuthUser)
        (srp : String → String → String → Option String)
        (dto : LoginStep2Dto) (s : RedisState) (d : SRPSessionData) (ttl : Nat)
        (M2 : String) (user : AuthUser),
        s.store (srpSessionKey dto.sessionId) = some ⟨.json d, ttl⟩ →
        srp d.serverStep1State dto.clientPublicEphemeral dto.clientProof = some M2 →
        db d.username = some user →
        (loginStep2 cfg jwt db srp dto s).2.store (refreshTokenKey user.id) =
          some ⟨.str (jwt.sign ⟨user.id, user.username, "refresh"⟩
            cfg.refreshTokenExpiry), cfg.refreshTokenExpiry⟩) := by
  refine ⟨fun cfg jwt uid uname s => ⟨?_, rfl, fun uid' huid => ?_⟩,
    fun cfg jwt tok s p hv ht hb hg => ?_, ?_⟩
  · simp [generateTokens, RedisState.store_setex]
  · have hk : refreshTokenKey uid' ≠ refreshTokenKey uid :=
      fun h => huid (refreshTokenKey_inj uid' uid h)
    simp [generateTokens, RedisState.store_setex, hk]
  · simp only [refreshTokens, hv, ht, ne_eq, not_true_eq_false, if_false,
      RedisState.existsKey, hb, Option.isSome_none, Bool.false_eq_true, hg]
    simp [generateTokens, RedisState.store_setex,
      Ne.symm (blacklistKey_ne_refreshKey tok p.sub)]
  · intro cfg jwt db srp dto s d ttl M2 user h hsrp hdb
    simp only [loginStep2, RedisState.get, h, Option.map_some', hsrp, hdb]
    simp [generateTokens, RedisState.store_setex]

/-- Witness for C5 at concrete inputs: a successful rotation ends with the
newly signed refresh token stored under `u1` with TTL 604800. -/
theorem c5_witness :
    ((generateTokens cfgW jwtRotated "u1" "alice" rotStore).2.store
        (refreshTokenKey "u1") = some ⟨.str "u1.alice.refresh", 604800⟩)
    ∧ ((refreshTokens cfgW jwtRotated "newTok" rotStore).2.store
        (refreshTokenKey "u1") = some ⟨.str "u1.alice.refresh", 604800⟩) :=
  ⟨(c5_refresh_record_invariant.1 cfgW jwtRotated "u1" "alice" rotStore).1,
   c5_refresh_record_invariant.2.1 cfgW jwtRotated "newTok" rotStore
      ⟨"u1", "alice", "refresh", 2000⟩ (by decide) rfl (by decide) (by decide)⟩

/-- Counterexample for C3 at concrete inputs: `newTok` expires at 2000 and
is blacklisted at time 1900 — 100 seconds of remaining lifetime — yet both
the rotation path and the logout path store the blacklist entry with the
fixed TTL 604800, not 100. -/
theorem c3_counterexample :
    ((refreshTokens cfgW jwtRotated "newTok" rotStore).2.store
        (tokenBlacklistKey "newTok") = some ⟨.str "1", 604800⟩)
    ∧ jwtRotated.verify "newTok" = some ⟨"u1", "alice", "refresh", 2000⟩
    ∧ remainingLifetime ⟨"u1", "alice", "refresh", 2000⟩ 1900 = 100
    ∧ ((logout cfgW "u1" (some "newTok") rotStore).store
        (tokenBlacklistKey "newTok") = some ⟨.str "1", 604800⟩)
    ∧ (604800 : Nat) ≠ 100 := by
  refine ⟨by decide, by decide, by decide, by decide, by decide⟩

/-- Claim C3 as amended: whenever a refresh token is blacklisted — by a
successful rotation or by logout with a token supplied — the entry is
stored with the fixed TTL `refreshTokenExpiry` (the configured full
refresh-token lifetime), regardless of the token's remaining lifetime. -/
theorem c3_blacklist_fixed_ttl :
    (∀ (cfg : AuthConfig) (jwt : JwtService) (tok : String) (s : RedisState)
      (p : JwtPayload),
      jwt.verify tok = some p → p.type = "refresh" →
      s.store (tokenBlacklistKey tok) = none →
      s.get (refreshTokenKey p.sub) = some (.str tok) →
      (refreshTokens cfg jwt tok s).2.store (tokenBlacklistKey tok) =
        some ⟨.str "1", cfg.refreshTokenExpiry⟩)
    ∧ (∀ (cfg : AuthConfig) (uid tok : String) (s : RedisState),
      (logout cfg uid (some tok) s).store (tokenBlacklistKey tok) =
        some ⟨.str "1", cfg.refreshTokenExpiry⟩) := by
  refine ⟨fun cfg jwt tok s p hv ht hb hg => ?_, fun cfg uid tok s => ?_⟩
  · simp only [refreshTokens, hv, ht, ne_eq, not_true_eq_false, if_false,
      RedisState.existsKey, hb, Option.isSome_none, Bool.false_eq_true, hg]
    simp [generateTokens, RedisState.store_setex]
  · simp [logout, RedisState.store_setex]

/-- Witness for C3 (amended) at concrete inputs: rotation and logout both
blacklist with the configured TTL. -/
theorem c3_witness :
    ((refreshTokens cfgW jwtRotated "newTok" rotStore).2.store
        (tokenBlacklistKey "newTok") = some ⟨.str "1", 604800⟩)
    ∧ ((logout cfgW "u1" (some "tokX") rotStore).store
        (tokenBlacklistKey "tokX") = some ⟨.str "1", 604800⟩) :=
  ⟨c3_blacklist_fixed_ttl.1 cfgW jwtRotated "newTok" rotStore
      ⟨"u1", "alice", "refresh", 2000⟩ (by decide) rfl (by decide) (by decide),
   c3_blacklist_fixed_ttl.2 cfgW "u1" "tokX" rotStore⟩
